import Mathlib

/-!
Verification of the city-temperature forecasting repository.

The development shallowly embeds the two Python source files:
  * `predictive_model.py` — class `CityWeatherForecastingModel` with methods
    `__init__`, `fit`, `predict`, `_get_city_data`, `_prepare_train_test_data`
    and the static `_get_time_difference_in_months`;
  * `eda.py` — function `calculate_variablity`.

Conventions of the embedding:
  * Python `str` dates stay `String`; `pd.to_datetime` on a "YYYY-MM-DD"
    string becomes `parseDate`.
  * Python floats are modelled as rationals (`ℚ`); pandas NaN results of
    degenerate aggregations (empty series, `n ≤ 1` variance) coincide with
    Lean's division-by-zero convention and are never asserted numerically.
  * Python exceptions become `Except PyError` / an `Option PyError` component;
    quote characters inside original message texts are elided.
  * Python dicts keyed by city name become association lists with
    first-occurrence lookup and in-place update (`dictGet` / `dictSet`).
  * The statsmodels estimator and the pandas copy machinery are not part of
    the repository; they are modelled from the spec where needed, and each
    such definition carries a `Modelled from the spec:` doc comment.
-/

/-- A calendar date, as produced by `pd.to_datetime` on a "YYYY-MM-DD"
string: only the `year` and `month` fields are ever read by the repository
code apart from ordering comparisons. -/
structure Date where
  year : Nat
  month : Nat
  day : Nat
deriving DecidableEq, Repr

/-- Chronological key for a valid calendar date (month ≤ 12 < 13,
day ≤ 31 < 32), giving the lexicographic year/month/day order that a pandas
`DatetimeIndex` uses when slicing. -/
def Date.key (d : Date) : Nat :=
  (d.year * 13 + d.month) * 32 + d.day

/-- Python exception values that the embedded code can surface.
`valueError` covers both the repository's own `ValueError` in `predict` and
`ValueError`s raised inside pandas/statsmodels (library-internal faults);
`keyError` is a Python `KeyError` from a dict subscript.
`insufficientData` is the descriptive error kind the spec's §7 calls for; the
repository code never constructs it. -/
inductive PyError where
  | valueError (msg : String)
  | keyError (key : String)
  | insufficientData (msg : String)
deriving DecidableEq, Repr

/-- Splits a character list at every occurrence of the separator character,
keeping empty groups, as Python / pandas field splitting does. -/
def splitOnChar (c : Char) : List Char → List (List Char)
  | [] => [[]]
  | x :: xs =>
    if x = c then [] :: splitOnChar c xs
    else
      match splitOnChar c xs with
      | [] => [[x]]
      | g :: gs => (x :: g) :: gs

/-- Reads a non-empty all-digit character group as a decimal number. -/
def digitsToNat : List Char → Nat → Option Nat
  | [], acc => some acc
  | c :: cs, acc =>
    if 48 ≤ c.toNat ∧ c.toNat ≤ 57 then
      digitsToNat cs (acc * 10 + (c.toNat - 48))
    else none

/-- Decimal field of a date string; empty fields are rejected. -/
def fieldToNat (l : List Char) : Option Nat :=
  match l with
  | [] => none
  | _ => digitsToNat l 0

/-- `pd.to_datetime` restricted to the "YYYY-MM-DD" strings the spec's
configuration interface admits: three dash-separated decimal fields with a
calendar-valid month and day. Anything else raises in pandas, modelled as
`none`. -/
def parseDate (s : String) : Option Date :=
  match splitOnChar (Char.ofNat 45) s.toList with
  | [y, m, d] =>
    match fieldToNat y, fieldToNat m, fieldToNat d with
    | some yn, some mn, some dn =>
      if 1 ≤ mn ∧ mn ≤ 12 ∧ 1 ≤ dn ∧ dn ≤ 31 then some ⟨yn, mn, dn⟩ else none
    | _, _, _ => none
  | _ => none

/-- The month-difference formula of
`CityWeatherForecastingModel._get_time_difference_in_months` after both
dates have been parsed:
`(date_1.year - date_2.year) * 12 + (date_1.month - date_2.month)`. -/
def monthsDiff (d1 d2 : Date) : Int :=
  ((d1.year : Int) - (d2.year : Int)) * 12 + ((d1.month : Int) - (d2.month : Int))

/-- `CityWeatherForecastingModel._get_time_difference_in_months(date_1, date_2)`:
`pd.to_datetime` both arguments, then combine year and month differences.
A string `pd.to_datetime` cannot parse raises a `ValueError` inside pandas. -/
def getTimeDifferenceInMonths (date_1 date_2 : String) : Except PyError Int :=
  match parseDate date_1 with
  | none => .error (.valueError ("Unknown datetime string format: " ++ date_1))
  | some d1 =>
    match parseDate date_2 with
    | none => .error (.valueError ("Unknown datetime string format: " ++ date_2))
    | some d2 => .ok (monthsDiff d1 d2)

/-- One observation of the by-city dataset
(`GlobalLandTemperaturesByCity.csv`): the date index plus the columns the
repository reads. The temperature is nullable; pandas NaN is the explicit
absent marker `none`. -/
structure Row where
  date : Date
  city : String
  country : String
  averageTemperature : Option ℚ
deriving DecidableEq, Repr

/-- A date-indexed series of non-null average temperatures, as produced by
`['AverageTemperature'][a:b].dropna()`. -/
abbrev Series := List (Date × ℚ)

/-- The `AverageTemperature` column of a date-indexed frame, kept with its
date index and its nullable values. -/
def colAvgTemp (rows : List Row) : List (Date × Option ℚ) :=
  rows.map (fun r => (r.date, r.averageTemperature))

/-- pandas label slicing `series[lo:hi]` on a chronologically sorted
`DatetimeIndex`: both endpoints inclusive. -/
def sliceSeries (s : List (Date × Option ℚ)) (lo hi : Date) : List (Date × Option ℚ) :=
  s.filter (fun p => decide (lo.key ≤ p.1.key) && decide (p.1.key ≤ hi.key))

/-- pandas `.dropna()`: discard the rows whose value is absent. -/
def dropna (s : List (Date × Option ℚ)) : Series :=
  s.filterMap (fun p =>
    match p.2 with
    | some v => some (p.1, v)
    | none => none)

/-- A fitted statsmodels result object; the training series it was estimated
from determines every parameter of the deterministic estimator. -/
structure FittedModel where
  fittedTrain : Series
deriving DecidableEq, Repr

/-- The message of the `ValueError` statsmodels raises internally when the
seasonal initialization has fewer than two full seasonal cycles of data. -/
def statsmodelsSeasonalMsg : String :=
  "Cannot compute initial seasonals using heuristic method with less than two full seasonal cycles in the data."

/-- Modelled from the spec: the statsmodels call
`ExponentialSmoothing(train, trend="add", seasonal="add", seasonal_periods=12).fit()`
is not part of the repository. Per the spec it is a deterministic estimator
that needs at least two full 12-month seasonal cycles (24 points, §8) and
raises its own library-internal `ValueError` otherwise (§7); the repository
code neither catches nor translates that fault. -/
def exponentialSmoothingFit (train : Series) : Except PyError FittedModel :=
  if train.length < 24 then .error (.valueError statsmodelsSeasonalMsg)
  else .ok ⟨train⟩

/-- Modelled from the spec: one forecast value of the fitted seasonal
additive exponential-smoothing model, `h` steps past the training sample.
The spec admits any equivalent deterministic seasonal estimator with
additive level, trend and 12-period seasonal components; this one estimates
the level from the last cycle, the trend from the last two cycles, and each
seasonal offset from the mean deviation at that month position. -/
def FittedModel.forecastVal (fm : FittedModel) (h : Nat) : ℚ :=
  let vals := fm.fittedTrain.map (fun p => p.2)
  let n := vals.length
  let mean : ℚ := vals.sum / (n : ℚ)
  let level : ℚ := (vals.drop (n - 12)).sum / 12
  let prev : ℚ := ((vals.drop (n - 24)).take 12).sum / 12
  let trend : ℚ := (level - prev) / 12
  let idx := (n + h) % 12
  let occ := (vals.enum.filter (fun p => decide (p.1 % 12 = idx))).map (fun p => p.2)
  let seasonal : ℚ := (occ.map (fun v => v - mean)).sum / (occ.length : ℚ)
  level + trend * ((h : ℚ) + 1) + seasonal

/-- Modelled from the spec: `HoltWintersResults.forecast(steps)` returns one
point per requested period; a zero or negative number of periods yields zero
forecast points (§4.2: "producing zero forecast points is the natural
behavior" of the boundary case, §8: horizon 0 gives the empty sequence). -/
def forecastList (fm : FittedModel) (steps : Int) : List ℚ :=
  (List.range steps.toNat).map fm.forecastVal

/-- Lookup in a Python dict keyed by city name: the value at the first (and
only) occurrence of the key. -/
def dictGet {α : Type} (l : List (String × α)) (k : String) : Option α :=
  match l with
  | [] => none
  | p :: rest => if p.1 = k then some p.2 else dictGet rest k

/-- Python dict assignment `d[k] = v`: replace the value at an existing key
in place, append a fresh key at the end. -/
def dictSet {α : Type} (l : List (String × α)) (k : String) (v : α) : List (String × α) :=
  match l with
  | [] => [(k, v)]
  | p :: rest => if p.1 = k then (k, v) :: rest else p :: dictSet rest k v

/-- The state of a `CityWeatherForecastingModel` instance: the constructor
arguments, the four window boundaries, and the three per-city stores. -/
structure CityWeatherForecastingModel where
  data : List Row
  city_list : List String
  train_start : String
  train_end : String
  test_start : String
  test_end : String
  train_data : List (String × Series)
  test_data : List (String × Series)
  models : List (String × FittedModel)
deriving DecidableEq, Repr

/-- `CityWeatherForecastingModel.__init__(data_df, city_list, **kwargs)`:
store the frame and the city list, read each window boundary from the
keyword arguments with its own default, and create the three empty stores. -/
def initModel (data_df : List Row) (city_list : List String)
    (train_start train_end test_start test_end : Option String) :
    CityWeatherForecastingModel :=
  { data := data_df
    city_list := city_list
    train_start := train_start.getD "1960-01-01"
    train_end := train_end.getD "1999-12-01"
    test_start := test_start.getD "2000-01-01"
    test_end := test_end.getD "2013-12-01"
    train_data := []
    test_data := []
    models := [] }

/-- `CityWeatherForecastingModel._get_city_data(city)` at the level of row
values: `self.data.loc[self.data["City"]==city]`, i.e. the rows whose `City`
column equals the query, in original order with all columns. (The `.copy()`
aliasing behaviour is modelled separately on the cell store below.) -/
def getCityData (m : CityWeatherForecastingModel) (city : String) : List Row :=
  m.data.filter (fun r => decide (r.city = city))

/-- `pd.to_datetime` as used on the window-boundary strings: raises a
pandas `ValueError` on a string it cannot parse. -/
def toDatetime (s : String) : Except PyError Date :=
  match parseDate s with
  | none => .error (.valueError ("Unknown datetime string format: " ++ s))
  | some d => .ok d

/-- `CityWeatherForecastingModel._prepare_train_test_data(data)`: slice the
`AverageTemperature` column to the train window and to the test window
independently and drop absent values from each slice. -/
def prepareTrainTestData (m : CityWeatherForecastingModel) (data : List Row) :
    Except PyError (Series × Series) :=
  match toDatetime m.train_start with
  | .error e => .error e
  | .ok a =>
    match toDatetime m.train_end with
    | .error e => .error e
    | .ok b =>
      match toDatetime m.test_start with
      | .error e => .error e
      | .ok p =>
        match toDatetime m.test_end with
        | .error e => .error e
        | .ok q =>
          .ok (dropna (sliceSeries (colAvgTemp data) a b),
               dropna (sliceSeries (colAvgTemp data) p q))

/-- The per-city computation of one `fit` iteration before any store is
written: select the city's rows, prepare both slices, estimate the model.
Failures (unparseable boundary, estimator fault) surface here, before any
mutation of the stores. -/
def cityFitTriple (m : CityWeatherForecastingModel) (city : String) :
    Except PyError (Series × Series × FittedModel) :=
  match prepareTrainTestData m (getCityData m city) with
  | .error e => .error e
  | .ok (train, test) =>
    match exponentialSmoothingFit train with
    | .error e => .error e
    | .ok fm => .ok (train, test, fm)

/-- One iteration of the `fit` loop body for one city: on success, write the
fitted model and both slices into the stores under the city key. -/
def fitCity (m : CityWeatherForecastingModel) (city : String) :
    Except PyError CityWeatherForecastingModel :=
  match cityFitTriple m city with
  | .error e => .error e
  | .ok (train, test, fm) =>
    .ok { m with
      models := dictSet m.models city fm
      train_data := dictSet m.train_data city train
      test_data := dictSet m.test_data city test }

/-- The `fit` loop over a city list: cities are processed in order; the
first raised exception aborts the loop, keeping the stores written so far. -/
def fitList (m : CityWeatherForecastingModel) :
    List String → CityWeatherForecastingModel × Option PyError
  | [] => (m, none)
  | c :: rest =>
    match fitCity m c with
    | .error e => (m, some e)
    | .ok m' => fitList m' rest

/-- `CityWeatherForecastingModel.fit()`: iterate over `self.city_list`.
The resulting state is paired with the exception, if one was raised. -/
def fitRun (m : CityWeatherForecastingModel) :
    CityWeatherForecastingModel × Option PyError :=
  fitList m m.city_list

/-- `CityWeatherForecastingModel.predict(city, target_date=None)`: raise if
the model table is empty; default the target date to `test_end`; compute the
horizon from `target_date` and `test_start`; look the city up in the model
table (a missing key raises `KeyError`); forecast that many periods. The
method writes no attribute, so the state component is returned unchanged on
every path. -/
def predict (m : CityWeatherForecastingModel) (city : String)
    (target_date : Option String) :
    CityWeatherForecastingModel × Except PyError (List ℚ) :=
  if m.models = [] then
    (m, .error (.valueError "Models not fitted. run fit method first"))
  else
    match getTimeDifferenceInMonths (target_date.getD m.test_end) m.test_start with
    | .error e => (m, .error e)
    | .ok predict_periods =>
      match dictGet m.models city with
      | none => (m, .error (.keyError city))
      | some fm => (m, .ok (forecastList fm predict_periods))

/-- Modelled from the spec: the pandas row storage backing a dataframe,
needed to express the aliasing contract of `.copy()` in
`_get_city_data`. Cells are addressed by position. -/
abbrev Heap := List Row

/-- A dataframe over a cell store: the ordered list of cell addresses of its
rows. A view shares addresses with its parent; a copy owns fresh ones. -/
abbrev DFRef := List Nat

/-- Reads the cell at an address. -/
def nthCell : Heap → Nat → Option Row
  | [], _ => none
  | r :: _, 0 => some r
  | _ :: t, n + 1 => nthCell t n

/-- Overwrites the cell at an address (a pandas in-place mutation of a row). -/
def setCell : Heap → Nat → Row → Heap
  | [], _, _ => []
  | _ :: t, 0, r => r :: t
  | x :: t, n + 1, r => x :: setCell t n r

/-- The row values a dataframe currently denotes over the store. -/
def readDF (h : Heap) (df : DFRef) : List Row :=
  df.filterMap (nthCell h)

/-- `CityWeatherForecastingModel._get_city_data(city)` over the cell store:
`self.data.loc[self.data["City"]==city].copy()` — keep the addresses whose
row matches the city, read those rows, and allocate fresh cells for them
(the `.copy()`), returning the extended store and the copy's addresses. -/
def getCityDataHeap (h : Heap) (df : DFRef) (city : String) : Heap × DFRef :=
  let sel := df.filter (fun i =>
    match nthCell h i with
    | some r => decide (r.city = city)
    | none => false)
  let rows := sel.filterMap (nthCell h)
  (h ++ rows, (List.range rows.length).map (fun k => k + h.length))

/-- `Series.max()` of `eda.py`; the NaN it yields on an empty series is
modelled by the division-by-zero convention value 0 and never asserted. -/
def seriesMax (s : List ℚ) : ℚ :=
  match s with
  | [] => 0
  | x :: xs => xs.foldl max x

/-- `Series.min()` of `eda.py`. -/
def seriesMin (s : List ℚ) : ℚ :=
  match s with
  | [] => 0
  | x :: xs => xs.foldl min x

/-- `Series.mean()`, used by the variance. -/
def seriesMean (s : List ℚ) : ℚ := s.sum / (s.length : ℚ)

/-- `Series.var()` with the pandas default `ddof=1`; for `n ≤ 1` pandas
yields NaN, which the division-by-zero convention maps to 0. -/
def seriesVar (s : List ℚ) : ℚ :=
  (s.map (fun x => (x - seriesMean s) ^ 2)).sum / ((s.length : ℚ) - 1)

/-- Newton iteration for a deterministic stand-in of the floating-point
square root, which is not exactly representable over ℚ. -/
def sqrtNewton : Nat → ℚ → ℚ → ℚ
  | 0, _, x => x
  | n + 1, q, x => sqrtNewton n q ((x + q / x) / 2)

/-- `Series.std()` = square root of the `ddof=1` variance; the claims never
assert its numeric value, only that a value is returned. -/
def seriesStd (s : List ℚ) : ℚ :=
  if seriesVar s ≤ 0 then 0 else sqrtNewton 16 (seriesVar s) (seriesVar s + 1)

/-- Insertion step of the ascending sort behind `Series.quantile`. -/
def insertSorted (x : ℚ) : List ℚ → List ℚ
  | [] => [x]
  | y :: ys => if x ≤ y then x :: y :: ys else y :: insertSorted x ys

/-- Ascending sort of the series values. -/
def sortAsc (l : List ℚ) : List ℚ := l.foldr insertSorted []

/-- `Series.quantile(p)` with the pandas default linear interpolation:
position `h = p * (n - 1)` in the sorted values, interpolating between the
neighbouring order statistics. Empty series: NaN, modelled as 0. -/
def seriesQuantile (s : List ℚ) (p : ℚ) : ℚ :=
  let sorted := sortAsc s
  let n := sorted.length
  if n = 0 then 0
  else
    let pos : ℚ := p * ((n : ℚ) - 1)
    let i : Nat := pos.floor.toNat
    let lo := sorted.getD i 0
    let hi := sorted.getD (Nat.min (i + 1) (n - 1)) 0
    lo + (pos - (i : ℚ)) * (hi - lo)

/-- The `ValueError` message of `calculate_variablity` for an unknown
measure (quote characters elided). -/
def unknownMeasureMsg (measure : String) : String :=
  "Unknown variability measure: " ++ measure ++
    ". Please choose between: var, std, range and iqr."

/-- `eda.calculate_variablity(tmp_series, measure)`: dispatch on the measure
name; any unknown name raises a `ValueError`. -/
def calculate_variablity (tmp_series : List ℚ) (measure : String) :
    Except PyError ℚ :=
  if measure = "var" then .ok (seriesVar tmp_series)
  else if measure = "std" then .ok (seriesStd tmp_series)
  else if measure = "range" then .ok (seriesMax tmp_series - seriesMin tmp_series)
  else if measure = "iqr" then
    .ok (seriesQuantile tmp_series (3 / 4) - seriesQuantile tmp_series (1 / 4))
  else .error (.valueError (unknownMeasureMsg measure))

/-- Two full seasonal cycles of monthly observations for the city "Aarhus",
1960-01 through 1961-12, used as concrete witness data. -/
def sampleRows : List Row :=
  (List.range 24).map (fun k =>
    { date := ⟨1960 + k / 12, k % 12 + 1, 1⟩
      city := "Aarhus"
      country := "Denmark"
      averageTemperature := some ((k : ℚ)) })

/-- A Manager over the sample data with the default window boundaries. -/
def sampleModel : CityWeatherForecastingModel :=
  initModel sampleRows ["Aarhus"] none none none none

/-- A city whose selected rows carry only absent temperature values inside
the train window: the concrete input on which claim C4 is decided. -/
def cexC4Rows : List Row :=
  [ { date := ⟨1960, 1, 1⟩, city := "Nowhere", country := "Atlantis",
      averageTemperature := none },
    { date := ⟨1960, 2, 1⟩, city := "Nowhere", country := "Atlantis",
      averageTemperature := none },
    { date := ⟨1960, 3, 1⟩, city := "Nowhere", country := "Atlantis",
      averageTemperature := none } ]

/-- The Manager whose `fit()` run decides claim C4. -/
def cexC4Model : CityWeatherForecastingModel :=
  initModel cexC4Rows ["Nowhere"] none none none none

/-- A Manager with a non-empty model table that lacks the city "Berlin":
the concrete input for the second half of claim C3. -/
def unknownCityModel : CityWeatherForecastingModel :=
  { initModel [] ["Aarhus"] none none none none with
      models := [("Aarhus", ⟨[]⟩)] }

/-- The fields of the Manager that `fit` only reads and never writes: the
dataset, the city list and the four window boundaries. -/
def frameEq (m m' : CityWeatherForecastingModel) : Prop :=
  m.data = m'.data ∧ m.city_list = m'.city_list ∧
  m.train_start = m'.train_start ∧ m.train_end = m'.train_end ∧
  m.test_start = m'.test_start ∧ m.test_end = m'.test_end

/-- The three per-city stores all bind the city to the given slices and
fitted model. -/
def cityBound (m : CityWeatherForecastingModel) (c : String)
    (tr te : Series) (fm : FittedModel) : Prop :=
  dictGet m.models c = some fm ∧
  dictGet m.train_data c = some tr ∧
  dictGet m.test_data c = some te

/-- Claim C1: for every pair of date strings `target_date` and `test_start` in
"YYYY-MM-DD" form, the horizon computed by `predict` (via
`_get_time_difference_in_months`) equals
`(year(target_date) - year(test_start)) * 12 + (month(target_date) - month(test_start))`,
with the day-of-month ignored entirely; in particular `target_date = "2001-03-01"`
with `test_start = "2000-01-01"` yields horizon 14. -/
theorem claim_C1 (s1 s2 : String) (d1 d2 : Date)
    (h1 : parseDate s1 = some d1) (h2 : parseDate s2 = some d2) :
    getTimeDifferenceInMonths s1 s2 =
      .ok (((d1.year : Int) - (d2.year : Int)) * 12 +
           ((d1.month : Int) - (d2.month : Int))) ∧
    (∀ a b : Nat,
      monthsDiff ⟨d1.year, d1.month, a⟩ ⟨d2.year, d2.month, b⟩ = monthsDiff d1 d2) ∧
    getTimeDifferenceInMonths "2001-03-01" "2000-01-01" = .ok 14 := by
  refine ⟨?_, ?_, ?_⟩
  · simp [getTimeDifferenceInMonths, h1, h2, monthsDiff]
  · intro a b
    simp [monthsDiff]
  · rfl

/-- Witness for C1 at the concrete pair of the claim. -/
theorem claim_C1_witness :
    getTimeDifferenceInMonths "2001-03-01" "2000-01-01" = .ok 14 :=
  (claim_C1 "2001-03-01" "2000-01-01" ⟨2001, 3, 1⟩ ⟨2000, 1, 1⟩
    (by decide) (by decide)).2.2

theorem dictGet_nil {α : Type} (k : String) : dictGet ([] : List (String × α)) k = none := rfl

theorem dictGet_dictSet_self {α : Type} (l : List (String × α)) (k : String) (v : α) :
    dictGet (dictSet l k v) k = some v := by
  induction l with
  | nil => simp [dictSet, dictGet]
  | cons p rest ih =>
    by_cases hk : p.1 = k
    · simp [dictSet, hk, dictGet]
    · simp [dictSet, hk, dictGet, ih]

theorem dictGet_dictSet_ne {α : Type} (l : List (String × α)) (k k' : String) (v : α)
    (hne : k ≠ k') : dictGet (dictSet l k v) k' = dictGet l k' := by
  induction l with
  | nil => simp [dictSet, dictGet, hne]
  | cons p rest ih =>
    by_cases hk : p.1 = k
    · simp [dictSet, hk, dictGet, hne, ih]
    · simp [dictSet, hk, dictGet, ih]

theorem dictSet_eq_of_get {α : Type} (l : List (String × α)) (k : String) (v : α)
    (h : dictGet l k = some v) : dictSet l k v = l := by
  induction l with
  | nil => simp [dictGet] at h
  | cons p rest ih =>
    simp only [dictGet] at h
    by_cases hk : p.1 = k
    · rw [if_pos hk] at h
      have hv : p.2 = v := Option.some.inj h
      simp only [dictSet]
      rw [if_pos hk, ← hk, ← hv]
    · rw [if_neg hk] at h
      simp only [dictSet]
      rw [if_neg hk, ih h]

theorem dictGet_ne_nil {α : Type} (l : List (String × α)) (k : String) (v : α)
    (h : dictGet l k = some v) : l ≠ [] := by
  intro hl
  rw [hl] at h
  exact Option.noConfusion h

theorem frameEq_refl (m : CityWeatherForecastingModel) : frameEq m m :=
  ⟨rfl, rfl, rfl, rfl, rfl, rfl⟩

theorem frameEq_trans {a b c : CityWeatherForecastingModel}
    (h1 : frameEq a b) (h2 : frameEq b c) : frameEq a c := by
  obtain ⟨e1, e2, e3, e4, e5, e6⟩ := h1
  obtain ⟨f1, f2, f3, f4, f5, f6⟩ := h2
  exact ⟨e1.trans f1, e2.trans f2, e3.trans f3, e4.trans f4, e5.trans f5, e6.trans f6⟩

theorem cityFitTriple_congr {m m' : CityWeatherForecastingModel} (c : String)
    (h : frameEq m m') : cityFitTriple m c = cityFitTriple m' c := by
  obtain ⟨e1, e2, e3, e4, e5, e6⟩ := h
  simp only [cityFitTriple, prepareTrainTestData, getCityData, e1, e3, e4, e5, e6]

theorem fitCity_ok_frame {m m' : CityWeatherForecastingModel} {c : String}
    (h : fitCity m c = .ok m') : frameEq m m' := by
  unfold fitCity at h
  cases ht : cityFitTriple m c with
  | error e => rw [ht] at h; exact Except.noConfusion h
  | ok triple =>
    obtain ⟨tr, te, fm⟩ := triple
    rw [ht] at h
    cases h
    exact ⟨rfl, rfl, rfl, rfl, rfl, rfl⟩

theorem fitCity_ok_stores {m m' : CityWeatherForecastingModel} {c : String}
    {tr te : Series} {fm : FittedModel}
    (ht : cityFitTriple m c = .ok (tr, te, fm)) (h : fitCity m c = .ok m') :
    m'.models = dictSet m.models c fm ∧
    m'.train_data = dictSet m.train_data c tr ∧
    m'.test_data = dictSet m.test_data c te := by
  unfold fitCity at h
  rw [ht] at h
  cases h
  exact ⟨rfl, rfl, rfl⟩

theorem fitList_frame :
    ∀ (cs : List String) (m m₁ : CityWeatherForecastingModel) (e : Option PyError),
      fitList m cs = (m₁, e) → frameEq m m₁ := by
  intro cs
  induction cs with
  | nil =>
    intro m m₁ e h
    cases h
    exact frameEq_refl m
  | cons c rest ih =>
    intro m m₁ e h
    unfold fitList at h
    cases hc : fitCity m c with
    | error e' =>
      rw [hc] at h
      cases h
      exact frameEq_refl m
    | ok m' =>
      rw [hc] at h
      exact frameEq_trans (fitCity_ok_frame hc) (ih m' m₁ e h)

theorem fitList_stable :
    ∀ (cs : List String) (m m₁ : CityWeatherForecastingModel),
      fitList m cs = (m₁, none) →
      ∀ (c : String) (tr te : Series) (fm : FittedModel),
        cityFitTriple m c = .ok (tr, te, fm) → cityBound m c tr te fm →
        cityBound m₁ c tr te fm := by
  intro cs
  induction cs with
  | nil =>
    intro m m₁ h c tr te fm _ hb
    cases h
    exact hb
  | cons c₀ rest ih =>
    intro m m₁ h c tr te fm ht hb
    cases hc : fitCity m c₀ with
    | error e' =>
      simp only [fitList, hc] at h
      injection h with h1 h2
      exact Option.noConfusion h2
    | ok m' =>
      simp only [fitList, hc] at h
      have hframe : frameEq m m' := fitCity_ok_frame hc
      have ht' : cityFitTriple m' c = .ok (tr, te, fm) :=
        (cityFitTriple_congr c hframe) ▸ ht
      refine ih m' m₁ h c tr te fm ht' ?_
      obtain ⟨hb1, hb2, hb3⟩ := hb
      cases ht0 : cityFitTriple m c₀ with
      | error e0 =>
        unfold fitCity at hc
        rw [ht0] at hc
        exact Except.noConfusion hc
      | ok triple0 =>
        obtain ⟨tr0, te0, fm0⟩ := triple0
        obtain ⟨hs1, hs2, hs3⟩ := fitCity_ok_stores ht0 hc
        by_cases hcc : c₀ = c
        · subst hcc
          rw [ht0] at ht
          cases ht
          exact ⟨hs1 ▸ dictGet_dictSet_self .., hs2 ▸ dictGet_dictSet_self ..,
                 hs3 ▸ dictGet_dictSet_self ..⟩
        · refine ⟨?_, ?_, ?_⟩
          · rw [hs1, dictGet_dictSet_ne _ _ _ _ hcc]; exact hb1
          · rw [hs2, dictGet_dictSet_ne _ _ _ _ hcc]; exact hb2
          · rw [hs3, dictGet_dictSet_ne _ _ _ _ hcc]; exact hb3

theorem fitList_complete :
    ∀ (cs : List String) (m m₁ : CityWeatherForecastingModel),
      fitList m cs = (m₁, none) →
      ∀ c ∈ cs, ∃ (tr te : Series) (fm : FittedModel),
        cityFitTriple m c = .ok (tr, te, fm) ∧ cityBound m₁ c tr te fm := by
  intro cs
  induction cs with
  | nil =>
    intro m m₁ _ c hc
    exact absurd hc (List.not_mem_nil c)
  | cons c₀ rest ih =>
    intro m m₁ h c hc
    cases hfc : fitCity m c₀ with
    | error e' =>
      simp only [fitList, hfc] at h
      injection h with h1 h2
      exact Option.noConfusion h2
    | ok m' =>
      simp only [fitList, hfc] at h
      have hframe : frameEq m m' := fitCity_ok_frame hfc
      cases ht0 : cityFitTriple m c₀ with
      | error e0 =>
        unfold fitCity at hfc
        rw [ht0] at hfc
        exact Except.noConfusion hfc
      | ok triple0 =>
        obtain ⟨tr0, te0, fm0⟩ := triple0
        obtain ⟨hs1, hs2, hs3⟩ := fitCity_ok_stores ht0 hfc
        rcases List.mem_cons.mp hc with hceq | hcrest
        · subst hceq
          refine ⟨tr0, te0, fm0, ht0, ?_⟩
          refine fitList_stable rest m' m₁ h c tr0 te0 fm0
            ((cityFitTriple_congr c hframe) ▸ ht0) ?_
          exact ⟨hs1 ▸ dictGet_dictSet_self .., hs2 ▸ dictGet_dictSet_self ..,
                 hs3 ▸ dictGet_dictSet_self ..⟩
        · obtain ⟨tr, te, fm, ht, hb⟩ := ih m' m₁ h c hcrest
          exact ⟨tr, te, fm, (cityFitTriple_congr c hframe).symm ▸ ht, hb⟩

theorem fitList_fixed :
    ∀ (cs : List String) (m₁ : CityWeatherForecastingModel),
      (∀ c ∈ cs, ∃ (tr te : Series) (fm : FittedModel),
        cityFitTriple m₁ c = .ok (tr, te, fm) ∧ cityBound m₁ c tr te fm) →
      fitList m₁ cs = (m₁, none) := by
  intro cs
  induction cs with
  | nil => intro m₁ _; rfl
  | cons c₀ rest ih =>
    intro m₁ hall
    obtain ⟨tr, te, fm, ht, hb1, hb2, hb3⟩ := hall c₀ (List.mem_cons_self c₀ rest)
    have hfc : fitCity m₁ c₀ = .ok m₁ := by
      simp only [fitCity, ht]
      rw [dictSet_eq_of_get _ _ _ hb1, dictSet_eq_of_get _ _ _ hb2,
          dictSet_eq_of_get _ _ _ hb3]
    simp only [fitList, hfc]
    exact ih m₁ (fun c hc => hall c (List.mem_cons_of_mem c₀ hc))

theorem toDatetime_some {s : String} {d : Date} (h : parseDate s = some d) :
    toDatetime s = .ok d := by
  unfold toDatetime
  rw [h]

theorem toDatetime_ok_parse {s : String} {d : Date} (h : toDatetime s = .ok d) :
    parseDate s = some d := by
  unfold toDatetime at h
  cases hp : parseDate s with
  | none =>
    simp only [hp] at h
    exact Except.noConfusion h
  | some d' =>
    simp only [hp] at h
    injection h with hd
    rw [hd]

theorem toDatetime_error_shape {s : String} {e : PyError}
    (h : toDatetime s = .error e) : ∃ msg, e = .valueError msg := by
  unfold toDatetime at h
  cases hp : parseDate s with
  | none =>
    simp only [hp] at h
    injection h with h1
    exact ⟨_, h1.symm⟩
  | some d =>
    simp only [hp] at h
    exact Except.noConfusion h

theorem exponentialSmoothingFit_error_shape {train : Series} {e : PyError}
    (h : exponentialSmoothingFit train = .error e) :
    e = .valueError statsmodelsSeasonalMsg := by
  unfold exponentialSmoothingFit at h
  by_cases hl : train.length < 24
  · rw [if_pos hl] at h
    injection h with he
    exact he.symm
  · rw [if_neg hl] at h
    exact Except.noConfusion h

theorem exponentialSmoothingFit_ok_length {train : Series} {fm : FittedModel}
    (h : exponentialSmoothingFit train = .ok fm) : 24 ≤ train.length := by
  unfold exponentialSmoothingFit at h
  by_cases hl : train.length < 24
  · rw [if_pos hl] at h
    exact Except.noConfusion h
  · exact Nat.le_of_not_lt hl

theorem prepareTrainTestData_error_shape {m : CityWeatherForecastingModel}
    {rows : List Row} {e : PyError}
    (h : prepareTrainTestData m rows = .error e) : ∃ msg, e = .valueError msg := by
  unfold prepareTrainTestData at h
  cases h1 : toDatetime m.train_start with
  | error e1 =>
    simp only [h1] at h
    injection h with he
    exact he ▸ toDatetime_error_shape h1
  | ok a =>
    simp only [h1] at h
    cases h2 : toDatetime m.train_end with
    | error e2 =>
      simp only [h2] at h
      injection h with he
      exact he ▸ toDatetime_error_shape h2
    | ok b =>
      simp only [h2] at h
      cases h3 : toDatetime m.test_start with
      | error e3 =>
        simp only [h3] at h
        injection h with he
        exact he ▸ toDatetime_error_shape h3
      | ok p =>
        simp only [h3] at h
        cases h4 : toDatetime m.test_end with
        | error e4 =>
          simp only [h4] at h
          injection h with he
          exact he ▸ toDatetime_error_shape h4
        | ok q =>
          simp only [h4] at h
          exact Except.noConfusion h

theorem prepareTrainTestData_ok_elim {m : CityWeatherForecastingModel}
    {rows : List Row} {tr te : Series}
    (h : prepareTrainTestData m rows = .ok (tr, te)) :
    ∃ a b p q : Date,
      parseDate m.train_start = some a ∧ parseDate m.train_end = some b ∧
      parseDate m.test_start = some p ∧ parseDate m.test_end = some q ∧
      tr = dropna (sliceSeries (colAvgTemp rows) a b) ∧
      te = dropna (sliceSeries (colAvgTemp rows) p q) := by
  unfold prepareTrainTestData at h
  cases h1 : toDatetime m.train_start with
  | error e1 => simp only [h1] at h; exact Except.noConfusion h
  | ok a =>
    simp only [h1] at h
    cases h2 : toDatetime m.train_end with
    | error e2 => simp only [h2] at h; exact Except.noConfusion h
    | ok b =>
      simp only [h2] at h
      cases h3 : toDatetime m.test_start with
      | error e3 => simp only [h3] at h; exact Except.noConfusion h
      | ok p =>
        simp only [h3] at h
        cases h4 : toDatetime m.test_end with
        | error e4 => simp only [h4] at h; exact Except.noConfusion h
        | ok q =>
          simp only [h4] at h
          injection h with hpair
          injection hpair with htr hte
          exact ⟨a, b, p, q, toDatetime_ok_parse h1, toDatetime_ok_parse h2,
                 toDatetime_ok_parse h3, toDatetime_ok_parse h4, htr.symm, hte.symm⟩

theorem cityFitTriple_error_shape {m : CityWeatherForecastingModel} {c : String}
    {e : PyError} (h : cityFitTriple m c = .error e) : ∃ msg, e = .valueError msg := by
  unfold cityFitTriple at h
  cases hp : prepareTrainTestData m (getCityData m c) with
  | error e1 =>
    simp only [hp] at h
    injection h with he
    exact he ▸ prepareTrainTestData_error_shape hp
  | ok pair =>
    obtain ⟨train, test⟩ := pair
    simp only [hp] at h
    cases hf : exponentialSmoothingFit train with
    | error e2 =>
      simp only [hf] at h
      injection h with he
      exact ⟨statsmodelsSeasonalMsg, he ▸ exponentialSmoothingFit_error_shape hf⟩
    | ok fm =>
      simp only [hf] at h
      exact Except.noConfusion h

theorem cityFitTriple_ok_elim {m : CityWeatherForecastingModel} {c : String}
    {tr te : Series} {fm : FittedModel}
    (h : cityFitTriple m c = .ok (tr, te, fm)) :
    ∃ a b p q : Date,
      parseDate m.train_start = some a ∧ parseDate m.train_end = some b ∧
      parseDate m.test_start = some p ∧ parseDate m.test_end = some q ∧
      tr = dropna (sliceSeries (colAvgTemp (getCityData m c)) a b) ∧
      te = dropna (sliceSeries (colAvgTemp (getCityData m c)) p q) ∧
      exponentialSmoothingFit tr = .ok fm := by
  unfold cityFitTriple at h
  cases hp : prepareTrainTestData m (getCityData m c) with
  | error e1 => simp only [hp] at h; exact Except.noConfusion h
  | ok pair =>
    obtain ⟨train, test⟩ := pair
    simp only [hp] at h
    cases hf : exponentialSmoothingFit train with
    | error e2 => simp only [hf] at h; exact Except.noConfusion h
    | ok fm' =>
      simp only [hf] at h
      injection h with he
      injection he with he1 he2
      injection he2 with he2 he3
      subst he1
      subst he2
      subst he3
      obtain ⟨a, b, p, q, ha, hb, hpp, hq, htr, hte⟩ := prepareTrainTestData_ok_elim hp
      exact ⟨a, b, p, q, ha, hb, hpp, hq, htr, hte, htr ▸ hf⟩

theorem fitList_error_shape :
    ∀ (cs : List String) (m m₁ : CityWeatherForecastingModel) (e : PyError),
      fitList m cs = (m₁, some e) → ∃ msg, e = .valueError msg := by
  intro cs
  induction cs with
  | nil =>
    intro m m₁ e h
    injection h with h1 h2
    exact Option.noConfusion h2
  | cons c₀ rest ih =>
    intro m m₁ e h
    cases hfc : fitCity m c₀ with
    | error e' =>
      simp only [fitList, hfc] at h
      injection h with h1 h2
      injection h2 with h3
      unfold fitCity at hfc
      cases ht : cityFitTriple m c₀ with
      | error e0 =>
        simp only [ht] at hfc
        injection hfc with he
        exact h3 ▸ he ▸ cityFitTriple_error_shape ht
      | ok triple =>
        obtain ⟨tr, te, fm⟩ := triple
        simp only [ht] at hfc
        exact Except.noConfusion hfc
    | ok m' =>
      simp only [fitList, hfc] at h
      exact ih m' m₁ e h

/-- Claim C6: for every city processed by a successful `fit()`, the stored
train slice equals that city's average-temperature values restricted to the
train window with absent-value rows dropped, the stored test slice is
computed the same way over the test window independently, and the fitted
model, train slice and test slice are stored keyed by the city name. -/
theorem claim_C6 (st : CityWeatherForecastingModel) (c : String) (a b p q : Date)
    (h : (fitRun st).2 = none) (hc : c ∈ st.city_list)
    (ha : parseDate st.train_start = some a) (hb : parseDate st.train_end = some b)
    (hp : parseDate st.test_start = some p) (hq : parseDate st.test_end = some q) :
    dictGet ((fitRun st).1).train_data c =
      some (dropna (sliceSeries (colAvgTemp (getCityData st c)) a b)) ∧
    dictGet ((fitRun st).1).test_data c =
      some (dropna (sliceSeries (colAvgTemp (getCityData st c)) p q)) ∧
    ∃ fm, exponentialSmoothingFit
        (dropna (sliceSeries (colAvgTemp (getCityData st c)) a b)) = .ok fm ∧
      dictGet ((fitRun st).1).models c = some fm := by
  have hpair : fitRun st = ((fitRun st).1, none) := by rw [← h]
  obtain ⟨tr, te, fm, ht, hm, htr, hte⟩ :=
    fitList_complete st.city_list st (fitRun st).1 hpair c hc
  obtain ⟨a', b', p', q', ha', hb', hp', hq', etr, ete, hfit⟩ := cityFitTriple_ok_elim ht
  have ea : a' = a := Option.some.inj (ha'.symm.trans ha)
  have eb : b' = b := Option.some.inj (hb'.symm.trans hb)
  have ep : p' = p := Option.some.inj (hp'.symm.trans hp)
  have eq' : q' = q := Option.some.inj (hq'.symm.trans hq)
  subst ea; subst eb; subst ep; subst eq'
  exact ⟨etr ▸ htr, ete ▸ hte, fm, etr ▸ hfit, hm⟩

/-- Witness for C6 on the concrete sample Manager. -/
theorem claim_C6_witness :
    dictGet ((fitRun sampleModel).1).train_data "Aarhus" =
      some (dropna (sliceSeries (colAvgTemp (getCityData sampleModel "Aarhus"))
        ⟨1960, 1, 1⟩ ⟨1999, 12, 1⟩)) ∧
    dictGet ((fitRun sampleModel).1).test_data "Aarhus" =
      some (dropna (sliceSeries (colAvgTemp (getCityData sampleModel "Aarhus"))
        ⟨2000, 1, 1⟩ ⟨2013, 12, 1⟩)) ∧
    ∃ fm, exponentialSmoothingFit
        (dropna (sliceSeries (colAvgTemp (getCityData sampleModel "Aarhus"))
          ⟨1960, 1, 1⟩ ⟨1999, 12, 1⟩)) = .ok fm ∧
      dictGet ((fitRun sampleModel).1).models "Aarhus" = some fm :=
  claim_C6 sampleModel "Aarhus"
    ⟨1960, 1, 1⟩ ⟨1999, 12, 1⟩ ⟨2000, 1, 1⟩ ⟨2013, 12, 1⟩
    (by decide) (by decide) (by decide) (by decide) (by decide) (by decide)

/-- Claim C7: `fit()` is idempotent: when a `fit()` run over the unchanged
input dataset succeeds, running `fit()` again from the resulting state
reproduces exactly the same state — identical stored train and test slices
and identical fitted model (hence identical model parameters, the estimator
being deterministic) for every city — and succeeds again. -/
theorem claim_C7 (st : CityWeatherForecastingModel)
    (h : (fitRun st).2 = none) :
    fitRun (fitRun st).1 = fitRun st := by
  have hpair : fitRun st = ((fitRun st).1, none) := by
    rw [← h]
  have hfit : fitList st st.city_list = ((fitRun st).1, none) := hpair
  have hframe : frameEq st (fitRun st).1 :=
    fitList_frame st.city_list st (fitRun st).1 none hfit
  have hcl : (fitRun st).1.city_list = st.city_list := hframe.2.1.symm
  have hall : ∀ c ∈ st.city_list, ∃ (tr te : Series) (fm : FittedModel),
      cityFitTriple (fitRun st).1 c = .ok (tr, te, fm) ∧
      cityBound (fitRun st).1 c tr te fm := by
    intro c hc
    obtain ⟨tr, te, fm, ht, hb⟩ := fitList_complete st.city_list st (fitRun st).1 hfit c hc
    exact ⟨tr, te, fm, (cityFitTriple_congr c hframe) ▸ ht, hb⟩
  have hfix : fitList (fitRun st).1 st.city_list = ((fitRun st).1, none) :=
    fitList_fixed st.city_list (fitRun st).1 hall
  calc fitRun (fitRun st).1
      = fitList (fitRun st).1 st.city_list := by rw [fitRun, hcl]
    _ = ((fitRun st).1, none) := hfix
    _ = fitRun st := hpair.symm

/-- Witness for C7: the sample Manager's `fit()` succeeds, and refitting
reproduces the state. -/
theorem claim_C7_witness : fitRun (fitRun sampleModel).1 = fitRun sampleModel :=
  claim_C7 sampleModel (by decide)

/-- Claim C4 as amended: for every city of the city list whose train slice
after window slicing and dropping absent values is shorter than one full
seasonal cycle of 12 points, `fit()` does fail — but by propagating a
`ValueError` raised inside the fitting library (`fit` contains no guard and
no translation), not by raising a descriptive `InsufficientData` error. -/
theorem claim_C4 (st : CityWeatherForecastingModel) (c : String) (a b : Date)
    (hc : c ∈ st.city_list)
    (ha : parseDate st.train_start = some a) (hb : parseDate st.train_end = some b)
    (hshort : (dropna (sliceSeries (colAvgTemp (getCityData st c)) a b)).length < 12) :
    ∃ msg, (fitRun st).2 = some (PyError.valueError msg) := by
  cases he : (fitRun st).2 with
  | none =>
    exfalso
    have hpair : fitRun st = ((fitRun st).1, none) := by rw [← he]
    obtain ⟨tr, te, fm, ht, _⟩ :=
      fitList_complete st.city_list st (fitRun st).1 hpair c hc
    obtain ⟨a', b', p', q', ha', hb', _, _, etr, _, hfit⟩ := cityFitTriple_ok_elim ht
    have ea : a' = a := Option.some.inj (ha'.symm.trans ha)
    have eb : b' = b := Option.some.inj (hb'.symm.trans hb)
    subst ea; subst eb
    have hlen : 24 ≤ tr.length := exponentialSmoothingFit_ok_length hfit
    rw [etr] at hlen
    exact Nat.not_lt.mpr hlen (Nat.lt_of_lt_of_le hshort (by norm_num))
  | some e =>
    have hpair : fitRun st = ((fitRun st).1, some e) := by rw [← he]
    obtain ⟨msg, hmsg⟩ := fitList_error_shape st.city_list st (fitRun st).1 e hpair
    exact ⟨msg, by rw [hmsg]⟩

/-- Witness for the amended C4 at the all-absent-values city. -/
theorem claim_C4_witness :
    ∃ msg, (fitRun cexC4Model).2 = some (PyError.valueError msg) :=
  claim_C4 cexC4Model "Nowhere" ⟨1960, 1, 1⟩ ⟨1999, 12, 1⟩
    (by decide) (by decide) (by decide) (by decide)

/-- Counterexample to C4 as stated: on the Manager whose single city has
only absent temperature values in the train window, `fit()` surfaces the
fitting library's internal `ValueError` — a propagated library fault, not a
descriptive `InsufficientData` error (a `PyError.valueError` is a different
constructor from `PyError.insufficientData`, so the two are never equal). -/
theorem claim_C4_counterexample :
    (fitRun cexC4Model).2 = some (PyError.valueError statsmodelsSeasonalMsg) := by
  decide

/-- Claim C8: construction stores the dataset, the city list and the four
date boundaries, defaulting each independently when omitted to
train 1960-01-01..1999-12-01 and test 2000-01-01..2013-12-01, performs no
other computation, and leaves the per-city train/test/model stores empty. -/
theorem claim_C8 (data : List Row) (cities : List String) (t1 t2 t3 t4 : Option String) :
    (initModel data cities t1 t2 t3 t4).data = data ∧
    (initModel data cities t1 t2 t3 t4).city_list = cities ∧
    (initModel data cities t1 t2 t3 t4).train_start = t1.getD "1960-01-01" ∧
    (initModel data cities t1 t2 t3 t4).train_end = t2.getD "1999-12-01" ∧
    (initModel data cities t1 t2 t3 t4).test_start = t3.getD "2000-01-01" ∧
    (initModel data cities t1 t2 t3 t4).test_end = t4.getD "2013-12-01" ∧
    (initModel data cities t1 t2 t3 t4).train_data = [] ∧
    (initModel data cities t1 t2 t3 t4).test_data = [] ∧
    (initModel data cities t1 t2 t3 t4).models = [] :=
  ⟨rfl, rfl, rfl, rfl, rfl, rfl, rfl, rfl, rfl⟩

/-- Claim C9: `predict` is read-only — the Manager state it returns is the
state it was called with, on every control path, so the stored dataset,
city list, window boundaries and the three per-city stores are unchanged. -/
theorem claim_C9 (m : CityWeatherForecastingModel) (c : String) (td : Option String) :
    (predict m c td).1 = m := by
  unfold predict
  by_cases he : m.models = []
  · rw [if_pos he]
  · rw [if_neg he]
    cases getTimeDifferenceInMonths (td.getD m.test_end) m.test_start with
    | error e => rfl
    | ok k =>
      cases dictGet m.models c with
      | none => rfl
      | some fm => rfl

/-- Claim C2: for a fitted city, `predict` returns the model's forecast
sequence whose length equals the computed horizon (for the meaningful,
non-negative horizons); an omitted `target_date` is resolved to `test_end`;
and `target_date = test_start` gives horizon 0 and the empty forecast. -/
theorem claim_C2 (m : CityWeatherForecastingModel) (c : String) (fm : FittedModel)
    (dts : Date) (hm : dictGet m.models c = some fm)
    (hts : parseDate m.test_start = some dts) :
    (∀ (td : String) (dt : Date), parseDate td = some dt →
      (predict m c (some td)).2 = .ok (forecastList fm (monthsDiff dt dts)) ∧
      (0 ≤ monthsDiff dt dts →
        ((forecastList fm (monthsDiff dt dts)).length : Int) = monthsDiff dt dts)) ∧
    predict m c none = predict m c (some m.test_end) ∧
    (predict m c (some m.test_start)).2 = .ok [] := by
  have hne : m.models ≠ [] := dictGet_ne_nil m.models c fm hm
  have hmain : ∀ (td : String) (dt : Date), parseDate td = some dt →
      (predict m c (some td)).2 = .ok (forecastList fm (monthsDiff dt dts)) := by
    intro td dt hdt
    simp only [predict, if_neg hne, Option.getD, getTimeDifferenceInMonths,
               hdt, hts, hm]
  refine ⟨?_, rfl, ?_⟩
  · intro td dt hdt
    refine ⟨hmain td dt hdt, ?_⟩
    intro hpos
    simp only [forecastList, List.length_map, List.length_range]
    exact Int.toNat_of_nonneg hpos
  · have h0 : monthsDiff dts dts = 0 := by simp [monthsDiff]
    have := hmain m.test_start dts hts
    rw [this, h0]
    rfl

/-- Witness for C2 on a Manager whose model table binds one city. -/
theorem claim_C2_witness :
    (predict unknownCityModel "Aarhus" none).2 =
      .ok (forecastList ⟨[]⟩ (monthsDiff ⟨2013, 12, 1⟩ ⟨2000, 1, 1⟩)) ∧
    (predict unknownCityModel "Aarhus" (some "2000-01-01")).2 = .ok [] := by
  have h := claim_C2 unknownCityModel "Aarhus" ⟨[]⟩ ⟨2000, 1, 1⟩
    (by decide) (by decide)
  refine ⟨?_, h.2.2⟩
  have h1 := (h.1 "2013-12-01" ⟨2013, 12, 1⟩ (by decide)).1
  rw [h.2.1]
  exact h1

/-- Claim C3: `predict(city, ...)` fails when `fit()` has never been called
(empty model table: the guard's `ValueError`) and when the city was never
fit (a `KeyError` from the model-table subscript); in neither case does it
return a result. -/
theorem claim_C3 (m : CityWeatherForecastingModel) (c : String) (td : Option String)
    (h : dictGet m.models c = none) :
    (m.models = [] →
      (predict m c td).2 = .error (.valueError "Models not fitted. run fit method first")) ∧
    (∀ dt dts : Date, m.models ≠ [] →
      parseDate (td.getD m.test_end) = some dt → parseDate m.test_start = some dts →
      (predict m c td).2 = .error (.keyError c)) ∧
    (∀ v : List ℚ, (predict m c td).2 ≠ .ok v) := by
  refine ⟨?_, ?_, ?_⟩
  · intro he
    simp only [predict, if_pos he]
  · intro dt dts hne hdt hdts
    simp only [predict, if_neg hne, getTimeDifferenceInMonths, hdt, hdts, h]
  · intro v hv
    unfold predict at hv
    by_cases he : m.models = []
    · rw [if_pos he] at hv
      exact Except.noConfusion hv
    · rw [if_neg he] at hv
      cases hg : getTimeDifferenceInMonths (td.getD m.test_end) m.test_start with
      | error e =>
        simp only [hg] at hv
        exact Except.noConfusion hv
      | ok k =>
        simp only [hg, h] at hv
        exact Except.noConfusion hv

/-- Witness for C3: an unfit city on a non-empty model table raises the
`KeyError`, and the same claim applied to a freshly constructed Manager
gives the not-fitted `ValueError`. -/
theorem claim_C3_witness :
    (predict unknownCityModel "Berlin" none).2 = .error (.keyError "Berlin") ∧
    (predict (initModel [] ["Aarhus"] none none none none) "Berlin" none).2 =
      .error (.valueError "Models not fitted. run fit method first") := by
  constructor
  · exact (claim_C3 unknownCityModel "Berlin" none (by decide)).2.1
      ⟨2013, 12, 1⟩ ⟨2000, 1, 1⟩ (by decide) (by decide) (by decide)
  · exact (claim_C3 (initModel [] ["Aarhus"] none none none none) "Berlin" none
      (by decide)).1 (by decide)

theorem nthCell_append_left :
    ∀ (h h2 : Heap) (i : Nat), i < h.length → nthCell (h ++ h2) i = nthCell h i := by
  intro h
  induction h with
  | nil => intro h2 i hi; exact absurd hi (Nat.not_lt_zero i)
  | cons x t ih =>
    intro h2 i hi
    cases i with
    | zero => rfl
    | succ n => exact ih h2 n (Nat.lt_of_succ_lt_succ hi)

theorem nthCell_append_right :
    ∀ (h h2 : Heap) (k : Nat), nthCell (h ++ h2) (h.length + k) = nthCell h2 k := by
  intro h
  induction h with
  | nil => intro h2 k; rw [List.nil_append, List.length_nil, Nat.zero_add]
  | cons x t ih =>
    intro h2 k
    rw [List.cons_append, List.length_cons, Nat.add_right_comm t.length 1 k]
    exact ih h2 k

theorem nthCell_set_ne :
    ∀ (h : Heap) (i j : Nat) (r : Row), i ≠ j →
      nthCell (setCell h i r) j = nthCell h j := by
  intro h
  induction h with
  | nil => intro i j r _; rfl
  | cons x t ih =>
    intro i j r hne
    cases i with
    | zero =>
      cases j with
      | zero => exact absurd rfl hne
      | succ n => rfl
    | succ m =>
      cases j with
      | zero => rfl
      | succ n => exact ih m n r (fun hc => hne (by rw [hc]))

theorem filterMapCongr {α β : Type} :
    ∀ (l : List α) (f g : α → Option β), (∀ a ∈ l, f a = g a) →
      l.filterMap f = l.filterMap g := by
  intro l f g
  induction l with
  | nil => intro _; rfl
  | cons x t ih =>
    intro hfg
    rw [List.filterMap_cons, List.filterMap_cons, hfg x (List.mem_cons_self x t),
        ih (fun a ha => hfg a (List.mem_cons_of_mem x ha))]

theorem range_filterMap_nthCell :
    ∀ (l : Heap), (List.range l.length).filterMap (nthCell l) = l := by
  intro l
  induction l with
  | nil => rfl
  | cons x t ih =>
    rw [List.length_cons, List.range_succ_eq_map, List.filterMap_cons]
    have hz : nthCell (x :: t) 0 = some x := rfl
    rw [hz, List.filterMap_map]
    have hcomp : (List.range t.length).filterMap (nthCell (x :: t) ∘ Nat.succ) =
        (List.range t.length).filterMap (nthCell t) :=
      filterMapCongr _ _ _ (fun a _ => rfl)
    rw [hcomp, ih]

theorem copyRead (h rows : Heap) :
    readDF (h ++ rows) ((List.range rows.length).map (fun k => k + h.length)) = rows := by
  unfold readDF
  rw [List.filterMap_map]
  have hcomp : (List.range rows.length).filterMap
        ((nthCell (h ++ rows)) ∘ (fun k => k + h.length)) =
      (List.range rows.length).filterMap (nthCell rows) := by
    apply filterMapCongr
    intro k _
    show nthCell (h ++ rows) (k + h.length) = nthCell rows k
    rw [Nat.add_comm]
    exact nthCell_append_right h rows k
  rw [hcomp]
  exact range_filterMap_nthCell rows

theorem mutFrame (h rows : Heap) (df : DFRef) (j : Nat) (r : Row)
    (hv : ∀ i ∈ df, i < h.length) (hj : h.length ≤ j) :
    readDF (setCell (h ++ rows) j r) df = readDF h df := by
  unfold readDF
  apply filterMapCongr
  intro i hi
  have hil : i < h.length := hv i hi
  have hij : j ≠ i := (Nat.ne_of_lt (Nat.lt_of_lt_of_le hil hj)).symm
  rw [nthCell_set_ne _ _ _ _ hij]
  exact nthCell_append_left h rows i hil

theorem sel_rows_eq (h : Heap) (city : String) :
    ∀ (idxs : List Nat),
      (idxs.filter (fun i =>
        match nthCell h i with
        | some r => decide (r.city = city)
        | none => false)).filterMap (nthCell h) =
      (idxs.filterMap (nthCell h)).filter (fun r => decide (r.city = city)) := by
  intro idxs
  induction idxs with
  | nil => rfl
  | cons i t ih =>
    cases hn : nthCell h i with
    | none =>
      simp [List.filter_cons, List.filterMap_cons, hn, ih]
    | some r =>
      by_cases hc : r.city = city
      · simp [List.filter_cons, List.filterMap_cons, hn, hc, ih]
      · simp [List.filter_cons, List.filterMap_cons, hn, hc, ih]

/-- Claim C5: the Data Selector `_get_city_data` returns exactly the rows
whose city field equals the query under string equality, in their original
relative order with all columns retained, and — because of `.copy()` — the
result owns fresh cells: mutating any cell of the returned frame leaves
every read of the original dataset unchanged. -/
theorem claim_C5 (h : Heap) (df : DFRef) (city : String)
    (hv : ∀ i ∈ df, i < h.length) :
    readDF (getCityDataHeap h df city).1 (getCityDataHeap h df city).2 =
      (readDF h df).filter (fun r => decide (r.city = city)) ∧
    ∀ (j : Nat) (r : Row), j ∈ (getCityDataHeap h df city).2 →
      readDF (setCell (getCityDataHeap h df city).1 j r) df = readDF h df := by
  constructor
  · calc readDF (getCityDataHeap h df city).1 (getCityDataHeap h df city).2
        = (df.filter (fun i =>
            match nthCell h i with
            | some r => decide (r.city = city)
            | none => false)).filterMap (nthCell h) := copyRead h _
      _ = (readDF h df).filter (fun r => decide (r.city = city)) :=
          sel_rows_eq h city df
  · intro j r hj
    obtain ⟨k, _, hk⟩ := List.mem_map.mp hj
    have hjlen : h.length ≤ j := hk ▸ Nat.le_add_left h.length k
    exact mutFrame h _ df j r hv hjlen

/-- Witness for C5 on a concrete two-row store. -/
theorem claim_C5_witness :
    readDF
        (getCityDataHeap
          [ { date := ⟨1960, 1, 1⟩, city := "Aarhus", country := "Denmark",
              averageTemperature := some 3 },
            { date := ⟨1960, 1, 1⟩, city := "Berlin", country := "Germany",
              averageTemperature := some 1 } ]
          [0, 1] "Aarhus").1
        (getCityDataHeap
          [ { date := ⟨1960, 1, 1⟩, city := "Aarhus", country := "Denmark",
              averageTemperature := some 3 },
            { date := ⟨1960, 1, 1⟩, city := "Berlin", country := "Germany",
              averageTemperature := some 1 } ]
          [0, 1] "Aarhus").2 =
      (readDF
        [ { date := ⟨1960, 1, 1⟩, city := "Aarhus", country := "Denmark",
            averageTemperature := some 3 },
          { date := ⟨1960, 1, 1⟩, city := "Berlin", country := "Germany",
            averageTemperature := some 1 } ]
        [0, 1]).filter (fun r => decide (r.city = "Aarhus")) :=
  (claim_C5
    [ { date := ⟨1960, 1, 1⟩, city := "Aarhus", country := "Denmark",
        averageTemperature := some 3 },
      { date := ⟨1960, 1, 1⟩, city := "Berlin", country := "Germany",
        averageTemperature := some 1 } ]
    [0, 1] "Aarhus" (by decide)).1

/-- Claim C10: `calculate_variablity` returns a value exactly for the four
measures var, std, range and iqr, raises `ValueError` exactly for every
other measure string, returns maximum minus minimum for "range", and
returns the 0.75-quantile minus the 0.25-quantile for "iqr". -/
theorem claim_C10 (s : List ℚ) (measure : String) :
    ((∃ v, calculate_variablity s measure = .ok v) ↔
      (measure = "var" ∨ measure = "std" ∨ measure = "range" ∨ measure = "iqr")) ∧
    ((∃ msg, calculate_variablity s measure = .error (.valueError msg)) ↔
      ¬(measure = "var" ∨ measure = "std" ∨ measure = "range" ∨ measure = "iqr")) ∧
    calculate_variablity s "range" = .ok (seriesMax s - seriesMin s) ∧
    calculate_variablity s "iqr" =
      .ok (seriesQuantile s (3 / 4) - seriesQuantile s (1 / 4)) := by
  have hr : calculate_variablity s "range" = .ok (seriesMax s - seriesMin s) := by
    unfold calculate_variablity
    rw [if_neg (by decide), if_neg (by decide), if_pos rfl]
  have hi : calculate_variablity s "iqr" =
      .ok (seriesQuantile s (3 / 4) - seriesQuantile s (1 / 4)) := by
    unfold calculate_variablity
    rw [if_neg (by decide), if_neg (by decide), if_neg (by decide), if_pos rfl]
  refine ⟨?_, ?_, hr, hi⟩
  · constructor
    · rintro ⟨v, hv⟩
      by_contra hn
      push_neg at hn
      obtain ⟨h1, h2, h3, h4⟩ := hn
      unfold calculate_variablity at hv
      rw [if_neg h1, if_neg h2, if_neg h3, if_neg h4] at hv
      exact Except.noConfusion hv
    · rintro (h | h | h | h) <;> subst h
      · exact ⟨seriesVar s, by unfold calculate_variablity; rw [if_pos rfl]⟩
      · exact ⟨seriesStd s,
          by unfold calculate_variablity; rw [if_neg (by decide), if_pos rfl]⟩
      · exact ⟨_, hr⟩
      · exact ⟨_, hi⟩
  · constructor
    · rintro ⟨msg, hv⟩ hmem
      rcases hmem with h | h | h | h <;> subst h
      · unfold calculate_variablity at hv
        rw [if_pos rfl] at hv
        exact Except.noConfusion hv
      · unfold calculate_variablity at hv
        rw [if_neg (by decide), if_pos rfl] at hv
        exact Except.noConfusion hv
      · rw [hr] at hv
        exact Except.noConfusion hv
      · rw [hi] at hv
        exact Except.noConfusion hv
    · intro hn
      push_neg at hn
      obtain ⟨h1, h2, h3, h4⟩ := hn
      refine ⟨unknownMeasureMsg measure, ?_⟩
      unfold calculate_variablity
      rw [if_neg h1, if_neg h2, if_neg h3, if_neg h4]

/-- Witness for C10: the range branch on a concrete series and the error
branch on an unknown measure name. -/
theorem claim_C10_witness :
    calculate_variablity [3, 1, 2] "range" =
      .ok (seriesMax [3, 1, 2] - seriesMin [3, 1, 2]) ∧
    (∃ msg, calculate_variablity [3, 1, 2] "median" = .error (.valueError msg)) :=
  ⟨(claim_C10 [3, 1, 2] "range").2.2.1,
   ((claim_C10 [3, 1, 2] "median").2.1).mpr (by decide)⟩
